import Mathlib

/-!
Shallow embedding of the V2 false-breakdown-reclaim scanner
(`src/signals.py`, `src/fundamentals.py`, `src/regime.py`, `src/io_utils.py`,
`src/watchlist_builder.py`).

Modelling conventions:
* Floating-point numbers are modelled as exact rationals (`ℚ`).
* A pandas `NaN` cell (including the result of `pd.to_numeric(errors="coerce")`
  on an unparseable cell) is modelled as `none : Option ℚ`; a pandas `Series`
  is a `List (Option ℚ)`.
* `rolling(n, min_periods=n)` windows: with `min_periods` equal to the window
  size, a result is defined exactly when the window is complete and free of
  `NaN`; a `NaN` inside the window drops the non-`NaN` count below `n`.
* Python calls with keyword arguments that do not occur in the callee's
  signature raise `TypeError` before the body runs; such call sites are
  modelled as `Except`, with the keyword lists taken verbatim from the caller
  and the accepted parameter lists verbatim from the callee's signature.
-/

namespace V2

/-- A pandas Series of floats: `none` models NaN (missing or uncoercible
values, as produced by `pd.to_numeric(errors="coerce")`). -/
abbrev Series := List (Option ℚ)

/-- One OHLCV row after numeric coercion; `signals.py` reads these fields. -/
structure Bar where
  open_  : Option ℚ := none
  high   : Option ℚ := none
  low    : Option ℚ := none
  close  : Option ℚ := none
  volume : Option ℚ := none
deriving DecidableEq, Repr

/-- A pandas DataFrame restricted to what the scanner reads: which columns
are present, and the OHLCV cells of each row. -/
structure DF where
  cols : List String
  rows : List Bar
deriving DecidableEq, Repr

/-- Column access `df[name]` for the five OHLCV columns. -/
def DF.col (df : DF) (name : String) : Series :=
  if name = "Open" then df.rows.map (·.open_)
  else if name = "High" then df.rows.map (·.high)
  else if name = "Low" then df.rows.map (·.low)
  else if name = "Close" then df.rows.map (·.close)
  else if name = "Volume" then df.rows.map (·.volume)
  else []

/-- `signals._has_cols`: all the given column names are present. -/
def hasCols (df : DF) (cs : List String) : Bool := cs.all (df.cols.contains ·)

/-- Last element of a Series as an optional value: `s.iloc[-1]`, with `none`
both for an empty series (`IndexError`, callers catch it) and a NaN value. -/
def lastO (s : Series) : Option ℚ := s.getLast?.join

/-- Head of a Series as an optional value (`none` for empty or NaN head). -/
def headO : Series → Option ℚ
  | [] => none
  | o :: _ => o

/-- `bool(x > y)` for two possibly-NaN values: any NaN makes it `False`. -/
def optGT (a b : Option ℚ) : Bool :=
  match a, b with
  | some x, some y => decide (y < x)
  | _, _ => false

/-- `bool(x < y)` for two possibly-NaN values: any NaN makes it `False`. -/
def optLT (a b : Option ℚ) : Bool :=
  match a, b with
  | some x, some y => decide (x < y)
  | _, _ => false

/-- NaN-propagating subtraction of two cells. -/
def optSub (a b : Option ℚ) : Option ℚ :=
  match a, b with
  | some x, some y => some (x - y)
  | _, _ => none

/-- Helper for `series.diff()`: pairwise difference against the previous cell. -/
def diffAux : Option ℚ → Series → Series
  | _, [] => []
  | p, y :: ys => optSub y p :: diffAux y ys

/-- `series.diff()`: first entry NaN, then `s[t] - s[t-1]`, NaN-propagating. -/
def diffS : Series → Series
  | [] => []
  | x :: xs => none :: diffAux x xs

/-- `series.shift(1)`: first entry NaN, everything else moved down one slot. -/
def shift1 (s : Series) : Series :=
  match s with
  | [] => []
  | _ :: _ => none :: s.dropLast

/-- `series.tail(k)`: the last `k` entries. -/
def lastN (k : Nat) (s : Series) : Series := s.drop (s.length - k)

/-- All cells of a window, provided none is NaN. -/
def allSome : Series → Option (List ℚ)
  | [] => some []
  | none :: _ => none
  | some x :: xs => (allSome xs).map (x :: ·)

/-- Arithmetic mean of a complete window (pandas divides by the non-NaN
count, which equals the window length here). -/
def meanQ (w : List ℚ) : ℚ := w.sum / w.length

/-- Minimum of a nonempty window. -/
def minQ : List ℚ → ℚ
  | [] => 0
  | x :: xs => xs.foldl min x

/-- Maximum of a nonempty window. -/
def maxQ : List ℚ → ℚ
  | [] => 0
  | x :: xs => xs.foldl max x

/-- One entry of `series.rolling(n, min_periods=n).f()`: at position `t` the
window is the `n` entries ending at `t`; the entry is defined only when the
window is complete (`t + 1 ≥ n`) and free of NaN. -/
def rollingStep (f : List ℚ → ℚ) (n : Nat) (s : Series) (t : Nat) : Option ℚ :=
  if t + 1 < n then none
  else
    match allSome ((s.drop (t + 1 - n)).take n) with
    | some w => some (f w)
    | none => none

/-- `series.rolling(n, min_periods=n).f()`, aligned with the input series. -/
def rollingApply (f : List ℚ → ℚ) (n : Nat) (s : Series) : Series :=
  (List.range s.length).map (rollingStep f n s)

/-- `series.rolling(n, min_periods=n).mean()`. -/
def rollingMean (n : Nat) (s : Series) : Series := rollingApply meanQ n s

/-- `series.bfill()`: each NaN is replaced by the next non-NaN entry after
it; trailing NaNs (no later valid value) stay NaN. -/
def bfill : Series → Series
  | [] => []
  | x :: xs =>
      (match x with
       | some v => some v
       | none => headO (bfill xs)) :: bfill xs

/-- `series.mean()` with pandas default `skipna=True`: mean of the non-NaN
entries, NaN when there is none. -/
def seriesMean (s : Series) : Option ℚ :=
  let v := s.filterMap id
  if v.length = 0 then none else some (v.sum / v.length)

/-- `np.isclose(a, b)` with the numpy defaults `rtol = 1e-5`, `atol = 1e-8`. -/
def isclose (a b : ℚ) : Bool :=
  decide (|a - b| ≤ 1 / 100000000 + |b| / 100000)

/-- `signals.sma`: rolling mean with `min_periods = length`
(`_coerce_numeric` is the identity here: cells are already numeric-or-NaN). -/
def sma (series : Series) (length : Nat) : Series := rollingMean length series

/-- `delta.where(delta > 0, 0.0)` entrywise: the positive part of a price
delta; a NaN delta fails the comparison and becomes `0.0`. -/
def gainOf (d : Option ℚ) : ℚ :=
  match d with
  | some x => if 0 < x then x else 0
  | none => 0

/-- `-delta.where(delta < 0, 0.0)` entrywise: the negated negative part of a
price delta; a NaN delta fails the comparison and becomes `0.0`. -/
def lossOf (d : Option ℚ) : ℚ :=
  match d with
  | some x => if x < 0 then -x else 0
  | none => 0

/-- `avg_gain / avg_loss.replace(0, np.nan)` entrywise: NaN when either
average is NaN or the average loss is exactly zero. -/
def rsDiv (ag al : Option ℚ) : Option ℚ :=
  match ag, al with
  | some g, some l => if l = 0 then none else some (g / l)
  | _, _ => none

/-- `signals.rsi`: simple-moving-average gains/losses over `length` bars,
`rs = avg_gain / avg_loss.replace(0, nan)`, `100 - 100/(1+rs)`, and a final
`.bfill()` of the result. -/
def rsi (series : Series) (length : Nat := 14) : Series :=
  let delta := diffS series
  let gain : Series := delta.map (fun d => some (gainOf d))
  let loss : Series := delta.map (fun d => some (lossOf d))
  let avg_gain := rollingMean length gain
  let avg_loss := rollingMean length loss
  let rs := List.zipWith rsDiv avg_gain avg_loss
  bfill (rs.map (Option.map (fun x => 100 - 100 / (1 + x))))

/-- Row-wise `max` of the three true-range candidates with pandas
`DataFrame.max(axis=1)` NaN-skipping: NaN cells are ignored, and the result
is NaN only when all three are NaN. -/
def nanMax2 (a b : Option ℚ) : Option ℚ :=
  match a, b with
  | none, y => y
  | some x, none => some x
  | some x, some y => some (max x y)

/-- True range per bar: `max(high-low, |high-prevClose|, |low-prevClose|)`
with NaN-skipping row maximum. -/
def trueRange (df : DF) : Series :=
  let high := df.col "High"
  let low := df.col "Low"
  let close := df.col "Close"
  let prev := shift1 close
  let tr1 := List.zipWith optSub high low
  let tr2 := (List.zipWith optSub high prev).map (Option.map abs)
  let tr3 := (List.zipWith optSub low prev).map (Option.map abs)
  List.zipWith nanMax2 (List.zipWith nanMax2 tr1 tr2) tr3

/-- `signals.atr`: rolling mean of the true range; an empty series when the
High/Low/Close columns are missing. -/
def atr (df : DF) (length : Nat := 14) : Series :=
  if hasCols df ["High", "Low", "Close"] then rollingMean length (trueRange df)
  else []

/-- `signals._rs_series`: `sym_close / idx_close.replace(0, np.nan)`
entrywise (the call sites pass identically-indexed series, so the aligned
division is positional). -/
def rsSeries (symClose idxClose : Series) : Series :=
  List.zipWith
    (fun s i =>
      match s, i with
      | some a, some b => if b = 0 then none else some (a / b)
      | _, _ => none)
    symClose idxClose

/-- `signals.rs_20d_high`: today's relative-strength ratio is (numerically)
equal to its rolling `window`-bar maximum. -/
def rs_20d_high (symClose idxClose : Series) (window : Nat := 20) : Bool :=
  let rs := rsSeries symClose idxClose
  if (rs.filterMap id).length < window then false
  else
    match lastO rs, lastO (rollingApply maxQ window rs) with
    | some a, some b => isclose a b
    | _, _ => false

/-- `signals.is_reclaim_setup`: support is the rolling `support_window`-bar
minimum of Close shifted one bar; true when some close within the last
`lookback_days` bars before today was below support, today's close is above
support (an undefined support compares as `-inf`), and, when required,
today's candle is green. -/
def is_reclaim_setup (df : DF) (lookback_days : Nat := 5)
    (support_window : Nat := 20) (require_green : Bool := true) : Bool :=
  if hasCols df ["Open", "Close"] then
    if df.rows.length < max (lookback_days + support_window) (support_window + 1) then false
    else
      let close := df.col "Close"
      let open_ := df.col "Open"
      let prior_support := shift1 (rollingApply minQ support_window close)
      let recentC := lastN (lookback_days + 1) close
      let recentS := lastN (lookback_days + 1) prior_support
      let breakdown := (List.zipWith optLT recentC.dropLast recentS.dropLast).any id
      let reclaim_today : Bool :=
        match lastO recentC with
        | none => false
        | some c =>
          match lastO recentS with
          | none => true
          | some s => decide (s < c)
      let green_today := if require_green then optGT (lastO close) (lastO open_) else true
      breakdown && reclaim_today && green_today
  else false

/-- The `lookback` entries preceding the last one: `vol.iloc[-(lookback+1):-1]`
(positional, clamping like Python slices). -/
def priorWindow (vol : Series) (lookback : Nat) : Series :=
  (vol.take (vol.length - 1)).drop (vol.length - 1 - lookback)

/-- `signals.volume_thrust`: today's volume strictly exceeds `multiple` times
the mean of the previous `lookback` volumes; guards require a Volume column
and at least `lookback + 1` non-NaN volumes. -/
def volume_thrust (df : DF) (lookback : Nat := 20) (multiple : ℚ := 1.5) : Bool :=
  if hasCols df ["Volume"] then
    let vol := df.col "Volume"
    if (vol.filterMap id).length < lookback + 1 then false
    else
      match lastO vol, seriesMean (priorWindow vol lookback) with
      | some v, some m => decide (multiple * m < v)
      | _, _ => false
  else false

/-- `signals.five_day_thrust`: `short`-bar over `long`-bar average volume
ratio at least `ratio_min`. -/
def five_day_thrust (df : DF) (short : Nat := 5) (long : Nat := 50)
    (ratio_min : ℚ := 1.2) : Bool :=
  if hasCols df ["Volume"] then
    let vol := df.col "Volume"
    if (vol.filterMap id).length < max short long then false
    else
      match lastO (rollingMean short vol), lastO (rollingMean long vol) with
      | some v5, some v50 => if v50 = 0 then false else decide (ratio_min ≤ v5 / v50)
      | _, _ => false
  else false

/-- pandas `Series.median()` of a NaN-free series: middle of the sorted
values, or the average of the two middles for an even count. -/
def medianQ (l : List ℚ) : ℚ :=
  let s := List.insertionSort (· ≤ ·) l
  let n := s.length
  if n = 0 then 0
  else if n % 2 = 1 then s.getD (n / 2) 0
  else (s.getD (n / 2 - 1) 0 + s.getD (n / 2) 0) / 2

/-- `signals.rising_rsi_band`: latest RSI inside `[low, high]`, at least the
median and strictly above the minimum of the last `lookback` RSI values. -/
def rising_rsi_band (close : Series) (low : ℚ := 20) (high : ℚ := 38)
    (lookback : Nat := 10) (rsi_len : Nat := 14) : Bool :=
  let r := rsi close rsi_len
  if (r.filterMap id).length < lookback then false
  else
    let r_tail := lastN lookback r
    if r_tail.any (·.isNone) then false
    else
      match lastO r_tail with
      | none => false
      | some lastv =>
        let vals := r_tail.filterMap id
        let in_band := decide (low ≤ lastv) && decide (lastv ≤ high)
        let rising := decide (medianQ vals ≤ lastv) && decide (minQ vals < lastv)
        in_band && rising

/-- One fundamentals row after `_to_float` coercion: each field is the parsed
number, `none` when the cell is absent or not parseable as a float. -/
structure FundRecord where
  debt_to_equity : Option ℚ := none
  interest_coverage : Option ℚ := none
  promoter_pledge_pct : Option ℚ := none
  qoq_rev_pos_last3 : Option ℚ := none
  qoq_eps_pos_last3 : Option ℚ := none
deriving DecidableEq, Repr

/-- The `checks` dict returned by `fundamentals.fundamentals_pass`: four
plain booleans plus the resolved status string. -/
structure FundChecks where
  de_le_1_5 : Bool
  icr_ge_2_5 : Bool
  pledge_le_20 : Bool
  qoq_rev_or_eps_ge_1_of_3 : Bool
  status : String
deriving DecidableEq, Repr

/-- Check `d_e is not None and d_e <= 1.5`: false when the field is missing. -/
def deOk (r : FundRecord) : Bool :=
  match r.debt_to_equity with
  | some x => decide (x ≤ 1.5)
  | none => false

/-- Check `icr is not None and icr >= 2.5`: false when the field is missing. -/
def icrOk (r : FundRecord) : Bool :=
  match r.interest_coverage with
  | some x => decide (2.5 ≤ x)
  | none => false

/-- Check `pledge is not None and pledge <= 20.0`: false when missing. -/
def pledgeOk (r : FundRecord) : Bool :=
  match r.promoter_pledge_pct with
  | some x => decide (x ≤ 20)
  | none => false

/-- Check `(qrev is not None and qrev >= 1) or (qeps is not None and qeps >= 1)`. -/
def qoqOk (r : FundRecord) : Bool :=
  (match r.qoq_rev_pos_last3 with
   | some x => decide (1 ≤ x)
   | none => false)
  || (match r.qoq_eps_pos_last3 with
      | some x => decide (1 ≤ x)
      | none => false)

/-- `fundamentals.fundamentals_pass`: FAIL when any check is `False`,
PASS when all are `True`, and otherwise the UNKNOWN/FAIL policy branch —
which, the checks being plain booleans, is unreachable. -/
def fundamentals_pass (row : FundRecord) (allow_unknown : Bool := false) : FundChecks :=
  let c1 := deOk row
  let c2 := icrOk row
  let c3 := pledgeOk row
  let c4 := qoqOk row
  let status :=
    if c1 = false || c2 = false || c3 = false || c4 = false then "FAIL"
    else if c1 && c2 && c3 && c4 then "PASS"
    else if allow_unknown then "UNKNOWN" else "FAIL"
  ⟨c1, c2, c3, c4, status⟩

/-- `regime.market_regime`: "ON" iff the index closed above its 200-bar SMA
and the share of sampled symbols above their 50-bar SMA reaches the
threshold; every exception inside the two `try` blocks collapses to a
`False` reading or a skipped symbol, so the result is "ON" or "OFF". -/
def market_regime (idx_df : DF) (universe_dfs : List (String × Option DF))
    (pct_above_50dma_for_on : ℚ := 55) : String :=
  let idx_above_200 : Bool :=
    if idx_df.cols.contains "Close" then
      optGT (lastO (idx_df.col "Close")) (lastO (sma (idx_df.col "Close") 200))
    else false
  let tally := universe_dfs.foldl
    (fun (acc : Nat × Nat) p =>
      match p.2 with
      | none => acc
      | some df =>
        if df.rows.length < 50 then acc
        else if df.cols.contains "Close" then
          (acc.1 + 1,
           acc.2 + (if optGT (lastO (df.col "Close")) (lastO (sma (df.col "Close") 50)) then 1 else 0))
        else (acc.1 + 1, acc.2))
    (0, 0)
  let pct : ℚ := if 0 < tally.1 then (tally.2 : ℚ) / (tally.1 : ℚ) * 100 else 0
  if idx_above_200 && decide (pct_above_50dma_for_on ≤ pct) then "ON" else "OFF"

/-- A raw Date cell, abstracted over the concrete parser: `pd.to_datetime`
either fails on a missing cell, fails on an unparseable string, or succeeds
and later renders as the canonical ISO string. -/
inductive DateCell where
  | missing
  | unparseable (raw : String)
  | parsed (iso : String)
deriving DecidableEq, Repr

/-- One raw CSV row as read by `io_utils.safe_read_eod`: numeric cells are
already passed through `pd.to_numeric(errors="coerce")`, so an unparseable
cell is `none`. -/
structure RawRow where
  date : DateCell := .missing
  open_ : Option ℚ := none
  high : Option ℚ := none
  low : Option ℚ := none
  close : Option ℚ := none
  volume : Option ℚ := none
  adjClose : Option ℚ := none
deriving DecidableEq, Repr

/-- A raw CSV table: which (already title-cased) column names are present,
plus the rows. -/
structure RawTable where
  cols : List String
  rows : List RawRow
deriving DecidableEq, Repr

/-- One cleaned row: the Date column is a string after
`pd.to_datetime(...).dt.date.astype(str)`. -/
structure CRow where
  date : String := ""
  open_ : Option ℚ := none
  high : Option ℚ := none
  low : Option ℚ := none
  close : Option ℚ := none
  volume : Option ℚ := none
deriving DecidableEq, Repr

/-- A cleaned table as returned by `io_utils.safe_read_eod`. -/
structure CleanTable where
  cols : List String
  rows : List CRow
deriving DecidableEq, Repr

/-- The `io_utils.NEEDED` column list. -/
def NEEDED : List String := ["Date", "Open", "High", "Low", "Close", "Volume"]

/-- `pd.to_datetime(col, errors="coerce").dt.date.astype(str)`: a parseable
date renders as its ISO string; a missing or unparseable cell becomes `NaT`,
which `astype(str)` turns into the literal string `"NaT"` — a string, not a
NaN. -/
def dateToStr : DateCell → String
  | .missing => "NaT"
  | .unparseable _ => "NaT"
  | .parsed iso => iso

/-- `io_utils._normalize_columns`: substitute `Adj Close` for a missing
`Close`, keep the needed columns that exist (in `NEEDED` order), and render
the Date column as strings. Column-name title-casing is upstream of this
model: `RawTable.cols` already holds canonical names. The date string is
computed for every row; when the Date column is absent it is never read
(all later Date operations are guarded on column presence, and a table
without a Date column is rejected at the end). -/
def _normalize_columns (t : RawTable) : CleanTable :=
  let useAdj := !t.cols.contains "Close" && t.cols.contains "Adj Close"
  let cols1 := if useAdj then t.cols ++ ["Close"] else t.cols
  { cols := NEEDED.filter (cols1.contains ·)
    rows := t.rows.map fun r =>
      { date := dateToStr r.date
        open_ := r.open_
        high := r.high
        low := r.low
        close := if useAdj then r.adjClose else r.close
        volume := r.volume } }

/-- `io_utils._coerce_numeric`: numeric coercion is already reflected in the
cells; rows with NaN Close are dropped. The subsequent
`dropna(subset=["Date"])` removes nothing: after `_normalize_columns` the
Date column holds strings (`"NaT"` for missing/unparseable dates), and a
string is never NaN — so it is the identity it is in the code. -/
def _coerce_numeric (t : CleanTable) : CleanTable :=
  { cols := t.cols
    rows := if t.cols.contains "Close" then t.rows.filter (·.close.isSome) else t.rows }

/-- `io_utils._sort_unique`: when a Date column exists, keep the first row
of each date and sort ascending by the date string (unique keys make the
sort order independent of the algorithm used). -/
def _sort_unique (t : CleanTable) : CleanTable :=
  if t.cols.contains "Date" then
    let dedup := t.rows.foldl
      (fun acc r => if acc.any (fun x => x.date = r.date) then acc else acc ++ [r]) []
    { cols := t.cols, rows := List.insertionSort (fun a b : CRow => a.date ≤ b.date) dedup }
  else t

/-- `io_utils.safe_read_eod`: `none` stands for a missing or unreadable file
(the `try` around `pd.read_csv`); otherwise normalize, coerce, sort, and
reject the result unless both Close and Date survived and at least one row
remains. -/
def safe_read_eod (file : Option RawTable) : Option CleanTable :=
  match file with
  | none => none
  | some raw =>
    let t := _sort_unique (_coerce_numeric (_normalize_columns raw))
    if t.cols.contains "Close" && t.cols.contains "Date" && !t.rows.isEmpty then some t
    else none

/-- One row of the frame produced by `watchlist_builder._coerce_ohlcv`: the
pandas row label survives the row-dropping filter, so downstream label-based
alignment sees gaps. -/
structure WRow where
  label : Nat
  open_ : Option ℚ := none
  high : Option ℚ := none
  low : Option ℚ := none
  close : Option ℚ := none
  volume : Option ℚ := none
deriving DecidableEq, Repr

/-- `out[_NUMERIC_COLS].notna().any(axis=1)`: at least one OHLCV cell is
defined. -/
def anyOhlcv (r : CRow) : Bool :=
  r.open_.isSome || r.high.isSome || r.low.isSome || r.close.isSome || r.volume.isSome

/-- `watchlist_builder._coerce_ohlcv`: `None` in, `None` out; require all
five OHLCV columns; drop rows that are NaN across all of OHLCV (keeping the
original row labels); `None` when nothing remains. -/
def _coerce_ohlcv (odf : Option CleanTable) : Option (List WRow) :=
  match odf with
  | none => none
  | some t =>
    if ["Open", "High", "Low", "Close", "Volume"].all (t.cols.contains ·) then
      let rows := t.rows.enum.filterMap fun p =>
        if anyOhlcv p.2 then
          some ⟨p.1, p.2.open_, p.2.high, p.2.low, p.2.close, p.2.volume⟩
        else none
      if rows.isEmpty then none else some rows
    else none

/-- An index-labelled pandas Series (label, value). -/
abbrev LSeries := List (Nat × Option ℚ)

/-- The positional values of a labelled series. -/
def valuesOf (a : LSeries) : Series := a.map (·.2)

/-- `a.align(b, join="inner")[0]`: `a` restricted to the labels that also
occur in `b` (both series carry ascending labels, so label order is
positional order). -/
def alignInner (a b : LSeries) : Series :=
  (a.filter fun p => b.any (fun q => q.1 = p.1)).map (·.2)

/-- `watchlist_builder._last`: the final value of a series, NaN (`none`) on
an empty series or a NaN cell. -/
def _last (s : Series) : Option ℚ := lastO s

/-- The `DataFrame` handed to the signal functions: a view of the cleaned
rows without labels (every signal function operates positionally). The
frame also carries a Date column in the source; no signal function reads
it, so only the OHLCV columns are materialized. -/
def toDF (w : List WRow) : DF :=
  { cols := ["Open", "High", "Low", "Close", "Volume"]
    rows := w.map fun r => ⟨r.open_, r.high, r.low, r.close, r.volume⟩ }

/-- Python keyword-argument check: a call is well-formed only when every
keyword names a parameter of the callee. -/
def kwargsAccepted (params kwargs : List String) : Bool :=
  kwargs.all (params.contains ·)

/-- Parameter names of `signals.is_reclaim_setup`, from its signature. -/
def reclaimParams : List String := ["df", "lookback_days", "support_window", "require_green"]

/-- Parameter names of `signals.volume_thrust`, from its signature. -/
def volumeThrustParams : List String := ["df", "lookback", "multiple"]

/-- Parameter names of `signals.rising_rsi_band`, from its signature. -/
def risingBandParams : List String := ["close", "low", "high", "lookback", "rsi_len"]

/-- A Python exception relevant to the modelled call sites. -/
inductive PyError where
  | typeError
deriving DecidableEq, Repr

/-- The call `is_reclaim_setup(df, lookback_days=20, ma_len=50)` at
`watchlist_builder.py:105`. `ma_len` is not a parameter of
`is_reclaim_setup`, so Python raises `TypeError` before the body runs. The
`.ok` branch is unreachable; it carries the binding the one valid keyword
would make. -/
def callIsReclaimSetup (df : DF) : Except PyError Bool :=
  match kwargsAccepted reclaimParams ["lookback_days", "ma_len"] with
  | true => .ok (is_reclaim_setup df 20)
  | false => .error .typeError

/-- The call `volume_thrust(df, lookback=5, mult=1.3)` at
`watchlist_builder.py:113`. `mult` is not a parameter of `volume_thrust`
(the signature says `multiple`), so Python raises `TypeError`. -/
def callVolumeThrust (df : DF) : Except PyError Bool :=
  match kwargsAccepted volumeThrustParams ["lookback", "mult"] with
  | true => .ok (volume_thrust df 5)
  | false => .error .typeError

/-- The call `rising_rsi_band(close, lower=20, upper=38)` at
`watchlist_builder.py:123`. Neither `lower` nor `upper` is a parameter of
`rising_rsi_band` (the signature says `low`/`high`), so Python raises
`TypeError`. -/
def callRisingRsiBand (close : Series) : Except PyError Bool :=
  match kwargsAccepted risingBandParams ["lower", "upper"] with
  | true => .ok (rising_rsi_band close)
  | false => .error .typeError

/-- Python `round` (banker's rounding, half to even) on an exact rational. -/
def roundHalfEven (y : ℚ) : ℤ :=
  let f := ⌊y⌋
  if y - f < 1 / 2 then f
  else if 1 / 2 < y - f then f + 1
  else if f % 2 = 0 then f else f + 1

/-- Python `round(x, d)` on an exact rational. -/
def pyRound (x : ℚ) (d : Nat) : ℚ := (roundHalfEven (x * 10 ^ d) : ℚ) / 10 ^ d

/-- One output record of `build_watchlist`, in the dict-insertion order of
the source (`Symbol, Close, ATR%, RSI, RS20DHigh, VolThrust, Reclaim,
Fundamentals, Notes`). -/
structure OutRow where
  symbol : String
  close : Option ℚ
  atrPct : Option ℚ
  rsiV : Option ℚ
  rs20dHigh : Bool
  volThrust : Bool
  reclaim : Bool
  fundamentals : Bool
  notes : String
deriving DecidableEq, Repr

/-- The output column names of `build_watchlist`: identical for the
empty-result frame (listed explicitly in the source) and the nonempty one
(dict keys in insertion order). -/
def outColumns : List String :=
  ["Symbol", "Close", "ATR%", "RSI", "RS20DHigh", "VolThrust", "Reclaim", "Fundamentals", "Notes"]

/-- The output frame of `build_watchlist`. -/
structure WOut where
  cols : List String
  rows : List OutRow
deriving DecidableEq, Repr

/-- The sort key of the final
`sort_values(by=["RS20DHigh", "VolThrust", "ATR%", "RSI"],
ascending=[False, True, True, False], kind="mergesort")`:
lexicographic on (RS20DHigh descending, VolThrust ascending, ATR% ascending,
RSI descending), encoded so that a plain `≤` on the lexicographic product
realizes it — a descending boolean becomes its negation, a descending
numeric becomes its negation, and a NaN sorts last within its key
(`na_position="last"`), encoded as an `isNone` flag ordered before the
value. -/
def rowKey (r : OutRow) : Lex (Bool × Lex (Bool × Lex (Lex (Bool × ℚ) × Lex (Bool × ℚ)))) :=
  toLex (!r.rs20dHigh,
    toLex (r.volThrust,
      toLex (toLex (r.atrPct.isNone, r.atrPct.getD 0),
        toLex (r.rsiV.isNone, -(r.rsiV.getD 0)))))

/-- The row order used by the final sort of `build_watchlist`. -/
def rowLE (a b : OutRow) : Prop := rowKey a ≤ rowKey b

instance : DecidableRel rowLE := fun a b => inferInstanceAs (Decidable (rowKey a ≤ rowKey b))

instance : IsTotal OutRow rowLE := ⟨fun a b => le_total (rowKey a) (rowKey b)⟩

instance : IsTrans OutRow rowLE := ⟨fun _ _ _ h1 h2 => le_trans h1 h2⟩

/-- The final sort of `build_watchlist`. `kind="mergesort"` selects a stable
sort; a stable sort by a fixed key is extensionally unique, and is realized
here by the stable insertion sort (`orderedInsert` places a new element
before the first strictly-later element, keeping ties in input order). -/
def sortRows (rows : List OutRow) : List OutRow := List.insertionSort rowLE rows

/-- Per-symbol body of the `for sym in symbols` loop of
`watchlist_builder.build_watchlist`: `none` both for the `continue` (short
or missing data) and for a rejected symbol; `some row` for an accepted one. -/
def evalSymbol (fund_df : List FundRecord) (readEod : String → Option CleanTable)
    (idxClose : Option LSeries) (sym : String) : Option OutRow :=
  match _coerce_ohlcv (readEod sym) with
  | none => none
  | some w =>
    if w.length < 60 then none
    else
      let close : LSeries := w.map fun r => (r.label, r.close)
      let df := toDF w
      let atr_val := _last (atr df 14)
      let atr_pct : Option ℚ :=
        match atr_val with
        | none => none
        | some a =>
          match _last (valuesOf close) with
          | none => none
          | some c => if c = 0 then none else some (a / c * 100)
      let rsi_val := _last (rsi (valuesOf close) 14)
      let reclaim_ok := match callIsReclaimSetup df with
        | .ok b => b
        | .error _ => false
      let vt_a := match callVolumeThrust df with
        | .ok b => b
        | .error _ => false
      let vt_b := five_day_thrust df
      let vol_ok := vt_a || vt_b
      let rsi_band_ok := match callRisingRsiBand (valuesOf close) with
        | .ok b => b
        | .error _ => false
      let rs20_ok := match idxClose with
        | none => false
        | some ic =>
          if 20 ≤ ic.length ∧ 20 ≤ close.length then
            rs_20d_high (alignInner close ic) (alignInner ic close)
          else false
      -- fund_ok := bool(fundamentals_pass(fund_df, sym)): fundamentals_pass
      -- defends every lookup and always returns a five-entry dict (plus
      -- status), and bool() of a nonempty dict is True — whatever frame or
      -- row it is handed.
      let fund_ok := true
      if reclaim_ok && vol_ok && rsi_band_ok && rs20_ok && fund_ok then
        let notes := (if vt_a then ["VolThrust5×1.3"] else [])
          ++ (if vt_b then ["5DThrust"] else [])
          ++ ["RSI↑(20–38)", "RS 20D High", "Reclaim", "Fund OK"]
        some { symbol := sym
               close := _last (valuesOf close)
               atrPct := atr_pct.map (pyRound · 2)
               rsiV := rsi_val.map (pyRound · 1)
               rs20dHigh := rs20_ok
               volThrust := vol_ok
               reclaim := reclaim_ok
               fundamentals := fund_ok
               notes := String.intercalate ", " notes }
      else none

/-- `watchlist_builder.build_watchlist`: clean the index, scan every symbol
in order, and either return the explicitly-listed empty frame or the sorted
candidate rows. `readEod` stands for `safe_read_eod(data_cache_dir, ·)`:
the cache directory as a function from symbol to cleaned table. -/
def build_watchlist (symbols : List String) (fund_df : List FundRecord)
    (readEod : String → Option CleanTable) (index_symbol : String) : WOut :=
  let idx := _coerce_ohlcv (readEod index_symbol)
  let idxClose : Option LSeries :=
    match idx with
    | none => none
    | some w => if w.length < 60 then none else some (w.map fun r => (r.label, r.close))
  let out_rows := symbols.filterMap (evalSymbol fund_df readEod idxClose)
  if out_rows.isEmpty then { cols := outColumns, rows := [] }
  else { cols := outColumns, rows := sortRows out_rows }

/-! Concrete inputs used by the scenario evaluations. -/

/-- The spec's reclaim scenario: closes `[10, 9, 8, 7, 20]` (greens, so the
candle condition cannot be the reason for a rejection). -/
def scenarioDF : DF :=
  { cols := ["Open", "High", "Low", "Close", "Volume"]
    rows := [{ open_ := some 1, close := some 10 }, { open_ := some 1, close := some 9 },
             { open_ := some 1, close := some 8 }, { open_ := some 1, close := some 7 },
             { open_ := some 1, close := some 20 }] }

/-- Closes `[5, 5, 5, 3, 6]`: a dip below the 3-bar rolling-minimum support
followed by a green reclaim, accepted by `is_reclaim_setup` with
`lookback_days = 2`, `support_window = 3`. -/
def reclaimDemo : DF :=
  { cols := ["Open", "High", "Low", "Close", "Volume"]
    rows := [{ open_ := some 5, close := some 5 }, { open_ := some 5, close := some 5 },
             { open_ := some 5, close := some 5 }, { open_ := some 5, close := some 3 },
             { open_ := some 5, close := some 6 }] }

/-- A single-bar frame (insufficient history for any detector). -/
def oneBarDF : DF :=
  { cols := ["Open", "High", "Low", "Close", "Volume"]
    rows := [{ open_ := some 1, close := some 2 }] }

/-- A one-bar index series: far fewer than 200 bars. -/
def tinyIdx : DF :=
  { cols := ["Open", "High", "Low", "Close", "Volume"]
    rows := [{ close := some 100 }] }

/-- Six volume bars `[1, 1, 1, 1, 1, 6]`: trailing 5-bar mean 1, last 6. -/
def demoVolDF : DF :=
  { cols := ["Open", "High", "Low", "Close", "Volume"]
    rows := [{ volume := some 1 }, { volume := some 1 }, { volume := some 1 },
             { volume := some 1 }, { volume := some 1 }, { volume := some 6 }] }

/-- Candidate row: symbol `AAA`, ATR% 1, RSI 10, all flags set. -/
def rowA : OutRow := ⟨"AAA", some 100, some 1, some 10, true, true, true, true, ""⟩

/-- Candidate row: symbol `BBB`, ATR% 1, RSI 50, all flags set — tied with
`rowA` on every claimed sort key, later in symbol order, higher RSI. -/
def rowB : OutRow := ⟨"BBB", some 100, some 1, some 50, true, true, true, true, ""⟩

/-- Candidate row: symbol `ZZZ`, tied with `rowA` on all four sort keys
(including RSI), later in symbol order. -/
def rowC : OutRow := ⟨"ZZZ", some 100, some 1, some 10, true, true, true, true, ""⟩

/-- A raw table with one row whose Date cell is unparseable and whose Close
is a valid number. -/
def badDateRaw : RawTable :=
  { cols := ["Date", "Close"]
    rows := [{ date := .unparseable "31-02-20xx", close := some 10 }] }

/-!
Theorems. Claim-level results are named `C1_…` to `C10_…`; the unnumbered
lemmas are shared plumbing about the list primitives.
-/

/-- The `is_reclaim_setup(df, lookback_days=20, ma_len=50)` call site always
raises `TypeError`: `ma_len` is not a parameter. -/
theorem callIsReclaimSetup_err (df : DF) :
    callIsReclaimSetup df = Except.error PyError.typeError := rfl

/-- The loop body of `build_watchlist` never produces a row: the reclaim
flag falls to `false` through the swallowed `TypeError`, and acceptance
requires it. -/
theorem evalSymbol_eq_none (fund_df : List FundRecord)
    (readEod : String → Option CleanTable) (idxClose : Option LSeries) (sym : String) :
    evalSymbol fund_df readEod idxClose sym = none := by
  unfold evalSymbol
  cases _coerce_ohlcv (readEod sym) with
  | none => rfl
  | some w =>
    by_cases h : w.length < 60
    · simp [h]
    · simp [h, callIsReclaimSetup_err]

/-- Claim C1: for every universe of symbols, fundamentals table, data cache,
and index symbol, `build_watchlist` returns an empty candidate list —
acceptance requires `reclaim_ok` (and `rsi_band_ok`), but the calls
`is_reclaim_setup(df, lookback_days=20, ma_len=50)` and
`rising_rsi_band(close, lower=20, upper=38)` pass keyword arguments absent
from the callees' signatures, the `TypeError` is swallowed by the
surrounding `except`, and the flags are false for every symbol. -/
theorem C1_build_watchlist_always_empty (symbols : List String)
    (fund_df : List FundRecord) (readEod : String → Option CleanTable)
    (index_symbol : String) :
    (build_watchlist symbols fund_df readEod index_symbol).rows = []
    ∧ kwargsAccepted reclaimParams ["lookback_days", "ma_len"] = false
    ∧ kwargsAccepted risingBandParams ["lower", "upper"] = false := by
  refine ⟨?_, rfl, rfl⟩
  unfold build_watchlist
  have h : ∀ (ic : Option LSeries) (xs : List String),
      xs.filterMap (evalSymbol fund_df readEod ic) = [] := by
    intro ic xs
    induction xs with
    | nil => rfl
    | cons a l ih => simp [List.filterMap_cons, evalSymbol_eq_none, ih]
  simp [h]

/-- Claim C2 counterexample: the output frame of the selector has no
`Entry` column (nor `Stop`, `R1`, `R2`); its columns are the nine actually
emitted by the code. -/
theorem C2_entry_fields_cex :
    "Entry" ∉ (build_watchlist ["RELIANCE"] [] (fun _ => none) "NIFTY50").cols
    ∧ (build_watchlist ["RELIANCE"] [] (fun _ => none) "NIFTY50").cols = outColumns := by
  constructor
  · exact of_decide_eq_true (by with_unfolding_all rfl)
  · exact of_decide_eq_true (by with_unfolding_all rfl)

/-- Claim C2 (amended): the selector computes no trade levels; for every
input the output columns are exactly `Symbol, Close, ATR%, RSI, RS20DHigh,
VolThrust, Reclaim, Fundamentals, Notes`, and none of `Entry`, `Stop`,
`R1`, `R2` appears. -/
theorem C2_output_columns_amended (symbols : List String)
    (fund_df : List FundRecord) (readEod : String → Option CleanTable)
    (index_symbol : String) :
    (build_watchlist symbols fund_df readEod index_symbol).cols = outColumns
    ∧ "Entry" ∉ outColumns ∧ "Stop" ∉ outColumns
    ∧ "R1" ∉ outColumns ∧ "R2" ∉ outColumns := by
  refine ⟨?_, by decide, by decide, by decide, by decide⟩
  unfold build_watchlist
  dsimp only
  split <;> rfl

/-- Claim C3 counterexample: on the spec's scenario — closes
`[10, 9, 8, 7, 20]` with `supportWindow = 4` (remaining parameters at their
defaults) — the code's detector returns `false`, not `true`: five bars are
fewer than the required `max(lookback_days + support_window,
support_window + 1) = 9`. -/
theorem C3_reclaim_scenario_cex : is_reclaim_setup scenarioDF 5 4 true = false :=
  of_decide_eq_true (by with_unfolding_all rfl)

/-- Claim C3 (amended): the detector's level is the shifted rolling
`support_window`-bar minimum of Close (no moving-average component, no
prior-high condition); it returns `false` whenever history is shorter than
`max(lookback_days + support_window, support_window + 1)` — in particular
on the spec's five-bar scenario — and it does accept a concrete
breakdown-then-green-reclaim series of sufficient length. -/
theorem C3_reclaim_amended :
    (∀ (df : DF) (ld sw : Nat) (rg : Bool),
        df.rows.length < max (ld + sw) (sw + 1) → is_reclaim_setup df ld sw rg = false)
    ∧ is_reclaim_setup reclaimDemo 2 3 true = true := by
  constructor
  · intro df ld sw rg h
    unfold is_reclaim_setup
    by_cases hc : hasCols df ["Open", "Close"]
    · simp [hc, h]
    · simp [hc]
  · exact of_decide_eq_true (by with_unfolding_all rfl)

/-- Claim C3 witness: the short-history clause of the amended claim at a
concrete one-bar input. -/
theorem C3_reclaim_amended_witness : is_reclaim_setup oneBarDF 5 20 true = false :=
  C3_reclaim_amended.1 oneBarDF 5 20 true (by decide)

/-- Claim C4 counterexample: a record whose quarterly fields are missing,
with every present ratio passing and the allow-unknown policy enabled,
yields `FAIL` — not `UNKNOWN` resolved by policy: a missing field makes its
check plainly `False` in this code, so missing data alone does produce
`FAIL` even when the policy allows unknown. -/
theorem C4_missing_data_fail_cex :
    (fundamentals_pass
        { debt_to_equity := some 1.2, interest_coverage := some 3,
          promoter_pledge_pct := some 10 } true).status = "FAIL" :=
  of_decide_eq_true (by with_unfolding_all rfl)

/-- Claim C4 (amended): the gate returns `PASS` exactly when all four
checks hold and `FAIL` otherwise, where a check with missing data counts as
false; `UNKNOWN` is never returned (the checks are plain booleans, so the
policy branch is dead code); and the spec's two concrete scenarios resolve
to `PASS` and `FAIL` as stated. -/
theorem C4_fundamentals_amended :
    (∀ (row : FundRecord) (policy : Bool),
        ((fundamentals_pass row policy).status = "PASS"
          ↔ (deOk row && icrOk row && pledgeOk row && qoqOk row) = true)
      ∧ ((fundamentals_pass row policy).status = "FAIL"
          ↔ (deOk row && icrOk row && pledgeOk row && qoqOk row) = false)
      ∧ (fundamentals_pass row policy).status ≠ "UNKNOWN")
    ∧ (fundamentals_pass
        { debt_to_equity := some 1.2, interest_coverage := some 3,
          promoter_pledge_pct := some 10, qoq_rev_pos_last3 := some 1 } false).status = "PASS"
    ∧ (fundamentals_pass
        { debt_to_equity := some 1.2, interest_coverage := some 3,
          promoter_pledge_pct := some 25, qoq_rev_pos_last3 := some 1 } false).status = "FAIL" := by
  refine ⟨?_, ?_, ?_⟩
  · intro row policy
    cases h1 : deOk row <;> cases h2 : icrOk row <;> cases h3 : pledgeOk row <;>
      cases h4 : qoqOk row <;> cases policy <;>
      simp [fundamentals_pass, h1, h2, h3, h4]
  · exact of_decide_eq_true (by with_unfolding_all rfl)
  · exact of_decide_eq_true (by with_unfolding_all rfl)

/-- Claim C4 witness: the amended characterization applied to the record
with all fields missing. -/
theorem C4_fundamentals_amended_witness :
    (fundamentals_pass ({} : FundRecord) false).status = "FAIL" :=
  (C4_fundamentals_amended.1 {} false).2.1.mpr (by decide)

/-- Membership in a `zipWith` comes from members of the two lists. -/
theorem mem_zipWith {α β γ : Type} (f : α → β → γ) :
    ∀ (a : List α) (b : List β) (c : γ), c ∈ List.zipWith f a b →
      ∃ x, x ∈ a ∧ ∃ y, y ∈ b ∧ c = f x y := by
  intro a
  induction a with
  | nil => intro b c h; simp [List.zipWith] at h
  | cons x xs ih =>
    intro b c h
    cases b with
    | nil => simp [List.zipWith] at h
    | cons y ys =>
      rcases List.mem_cons.mp h with h | h
      · exact ⟨x, by simp, y, by simp, h⟩
      · rcases ih ys c h with ⟨x', hx, y', hy, hc⟩
        exact ⟨x', by simp [hx], y', by simp [hy], hc⟩

/-- The values extracted by `allSome` are (wrapped) members of the window. -/
theorem allSome_mem :
    ∀ (w : Series) (ws : List ℚ), allSome w = some ws → ∀ x ∈ ws, some x ∈ w := by
  intro w
  induction w with
  | nil =>
    intro ws h x hx
    simp [allSome] at h
    subst h
    simp at hx
  | cons o os ih =>
    intro ws h x hx
    cases o with
    | none => simp [allSome] at h
    | some a =>
      simp only [allSome, Option.map_eq_some'] at h
      rcases h with ⟨ws', h1, h2⟩
      subst h2
      rcases List.mem_cons.mp hx with rfl | hx'
      · exact List.mem_cons_self _ _
      · exact List.mem_cons_of_mem _ (ih ws' h1 x hx')

/-- A defined rolling-window result is the aggregate of a window whose
values all come from the series. -/
theorem rollingStep_some {f : List ℚ → ℚ} {n : Nat} {s : Series} {t : Nat} {v : ℚ}
    (h : rollingStep f n s t = some v) :
    ∃ ws, (∀ x ∈ ws, some x ∈ s) ∧ v = f ws := by
  unfold rollingStep at h
  split at h
  · exact absurd h (by simp)
  · cases hw : allSome ((s.drop (t + 1 - n)).take n) with
    | none => rw [hw] at h; exact absurd h (by simp)
    | some ws =>
      rw [hw] at h
      refine ⟨ws, ?_, by injection h with h'; exact h'.symm⟩
      intro x hx
      have hmem := allSome_mem _ _ hw x hx
      have hsub : ((s.drop (t + 1 - n)).take n).Sublist s :=
        (List.take_sublist _ _).trans (List.drop_sublist _ _)
      exact hsub.subset hmem

/-- A defined rolling-mean value is the mean of a window drawn from the
series. -/
theorem rollingMean_mem_some {n : Nat} {s : Series} {v : ℚ}
    (h : some v ∈ rollingMean n s) :
    ∃ ws, (∀ x ∈ ws, some x ∈ s) ∧ v = meanQ ws := by
  unfold rollingMean rollingApply at h
  rcases List.mem_map.mp h with ⟨t, _, hstep⟩
  exact rollingStep_some hstep

/-- The mean of a window of nonnegative values is nonnegative. -/
theorem meanQ_nonneg {ws : List ℚ} (h : ∀ x ∈ ws, 0 ≤ x) : 0 ≤ meanQ ws :=
  div_nonneg (List.sum_nonneg h) (Nat.cast_nonneg _)

/-- Backward fill invents no values: every defined entry of `bfill s` is a
defined entry of `s`. -/
theorem bfill_mem_some : ∀ (s : Series) (v : ℚ), some v ∈ bfill s → some v ∈ s := by
  intro s
  induction s with
  | nil => intro v h; simp [bfill] at h
  | cons x xs ih =>
    intro v h
    cases x with
    | some a =>
      have hcons : bfill (some a :: xs) = some a :: bfill xs := rfl
      rw [hcons] at h
      rcases List.mem_cons.mp h with hh | ht
      · simp at hh
        simp [hh]
      · exact List.mem_cons_of_mem _ (ih v ht)
    | none =>
      have hcons : bfill (none :: xs) = headO (bfill xs) :: bfill xs := rfl
      rw [hcons] at h
      rcases List.mem_cons.mp h with hh | ht
      · cases hb : bfill xs with
        | nil => rw [hb] at hh; simp [headO] at hh
        | cons y ys =>
          rw [hb] at hh
          simp only [headO] at hh
          have hy : some v ∈ bfill xs := by
            rw [hb, ← hh]
            exact List.mem_cons_self _ _
          exact List.mem_cons_of_mem _ (ih v hy)
      · exact List.mem_cons_of_mem _ (ih v ht)

/-- The positive part of a delta is nonnegative. -/
theorem gainOf_nonneg (d : Option ℚ) : 0 ≤ gainOf d := by
  cases d with
  | none => simp [gainOf]
  | some x =>
    simp only [gainOf]
    split <;> linarith

/-- The negated negative part of a delta is nonnegative. -/
theorem lossOf_nonneg (d : Option ℚ) : 0 ≤ lossOf d := by
  cases d with
  | none => simp [lossOf]
  | some x =>
    simp only [lossOf]
    split <;> linarith

/-- Claim C5 counterexample: on an all-gains run (fifteen strictly
increasing closes, default RSI length 14) the latest RSI value is undefined
(NaN), not the claimed 100: the zero average loss is replaced by NaN, the
quotient is NaN, and the final backward fill has no later value to fill the
last slot from. -/
theorem C5_all_gains_rsi_cex :
    lastO (rsi [some 1, some 2, some 3, some 4, some 5, some 6, some 7, some 8,
      some 9, some 10, some 11, some 12, some 13, some 14, some 15]) = none :=
  of_decide_eq_true (by with_unfolding_all rfl)

/-- Claim C5 (amended): every defined RSI value lies in [0, 100]; in the
degenerate all-gains case the latest RSI is undefined rather than 100. -/
theorem C5_rsi_bounded (s : Series) (n : Nat) (v : ℚ)
    (h : some v ∈ rsi s n) : 0 ≤ v ∧ v ≤ 100 := by
  unfold rsi at h
  have h' := bfill_mem_some _ _ h
  rcases List.mem_map.mp h' with ⟨o, ho, hmap⟩
  cases o with
  | none => simp at hmap
  | some r =>
    simp only [Option.map_some', Option.some.injEq] at hmap
    rcases mem_zipWith _ _ _ _ ho with ⟨ag, hag, al, hal, heq⟩
    cases ag with
    | none => simp [rsDiv] at heq
    | some g =>
      cases al with
      | none => simp [rsDiv] at heq
      | some l =>
        by_cases hl0 : l = 0
        · simp [rsDiv, hl0] at heq
        · simp only [rsDiv, if_neg hl0, Option.some.injEq] at heq
          have hg : 0 ≤ g := by
            rcases rollingMean_mem_some hag with ⟨ws, hws, hval⟩
            refine hval ▸ meanQ_nonneg ?_
            intro x hx
            rcases List.mem_map.mp (hws x hx) with ⟨d, _, hd⟩
            have : x = gainOf d := by injection hd with h''; exact h''.symm
            exact this ▸ gainOf_nonneg d
          have hl : 0 ≤ l := by
            rcases rollingMean_mem_some hal with ⟨ws, hws, hval⟩
            refine hval ▸ meanQ_nonneg ?_
            intro x hx
            rcases List.mem_map.mp (hws x hx) with ⟨d, _, hd⟩
            have : x = lossOf d := by injection hd with h''; exact h''.symm
            exact this ▸ lossOf_nonneg d
          have hlpos : 0 < l := lt_of_le_of_ne hl (Ne.symm hl0)
          have hr : 0 ≤ r := by
            rw [heq]
            exact div_nonneg hg hlpos.le
          have h1r : (0 : ℚ) < 1 + r := by linarith
          constructor
          · have hdiv : 100 / (1 + r) ≤ 100 := by
              rw [div_le_iff₀ h1r]
              nlinarith
            rw [← hmap]
            linarith
          · have hdiv : 0 < 100 / (1 + r) := div_pos (by norm_num) h1r
            rw [← hmap]
            linarith

/-- Claim C5 witness: the bound applied to a concrete defined RSI value. -/
theorem C5_rsi_bounded_witness : 0 ≤ (50 : ℚ) ∧ (50 : ℚ) ≤ 100 :=
  C5_rsi_bounded [some 1, some 2, some 1, some 2] 3 50
    (of_decide_eq_true (by with_unfolding_all rfl))

/-- A rolling window over a series shorter than the window is undefined
everywhere. -/
theorem rollingApply_all_none {f : List ℚ → ℚ} {n : Nat} {s : Series}
    (h : s.length < n) : ∀ o ∈ rollingApply f n s, o = none := by
  intro o ho
  rcases List.mem_map.mp ho with ⟨t, ht, rfl⟩
  have ht' : t < s.length := List.mem_range.mp ht
  unfold rollingStep
  rw [if_pos]
  omega

/-- A rolling window is undefined at every warm-up position. -/
theorem rollingApply_getD_none {f : List ℚ → ℚ} {n : Nat} {s : Series} {t : Nat}
    (h : t + 1 < n) : (rollingApply f n s).getD t none = none := by
  unfold rollingApply
  rcases lt_or_ge t s.length with hlt | hge
  · rw [List.getD_eq_getElem?_getD, List.getElem?_map, List.getElem?_range hlt]
    simp [rollingStep, h]
  · rw [List.getD_eq_default]
    simpa using hge

/-- `diffAux` preserves length. -/
theorem diffAux_length : ∀ (p : Option ℚ) (ys : Series), (diffAux p ys).length = ys.length := by
  intro p ys
  induction ys generalizing p with
  | nil => rfl
  | cons y ys ih => simp [diffAux, ih]

/-- `series.diff()` preserves length. -/
theorem diffS_length (s : Series) : (diffS s).length = s.length := by
  cases s with
  | nil => rfl
  | cons x xs => simp [diffS, diffAux_length]

/-- `series.shift(1)` preserves length. -/
theorem shift1_length (s : Series) : (shift1 s).length = s.length := by
  cases s with
  | nil => rfl
  | cons x xs =>
    simp [shift1, List.length_dropLast]

/-- The Close column has one cell per row. -/
theorem col_close_length (df : DF) : (DF.col df "Close").length = df.rows.length := by
  simp [DF.col]

/-- The true-range series has one cell per row. -/
theorem trueRange_length (df : DF) : (trueRange df).length = df.rows.length := by
  simp [trueRange, DF.col, shift1_length, List.length_zipWith, List.length_map,
    List.length_dropLast]

/-- A `zipWith rsDiv` against an all-NaN average-gain list is all NaN. -/
theorem zipWith_rsDiv_none {a b : Series} (h : ∀ x ∈ a, x = none) :
    ∀ o ∈ List.zipWith rsDiv a b, o = none := by
  intro o ho
  rcases mem_zipWith _ _ _ _ ho with ⟨x, hx, y, hy, rfl⟩
  rw [h x hx]
  cases y <;> rfl

/-- Backward fill of an all-NaN series is all NaN. -/
theorem bfill_all_none : ∀ (s : Series), (∀ o ∈ s, o = none) → ∀ o ∈ bfill s, o = none := by
  intro s
  induction s with
  | nil => simp [bfill]
  | cons x xs ih =>
    intro h o ho
    have hx : x = none := h x (List.mem_cons_self _ _)
    subst hx
    have hcons : bfill (none :: xs) = headO (bfill xs) :: bfill xs := rfl
    rw [hcons] at ho
    rcases List.mem_cons.mp ho with rfl | ht
    · cases hb : bfill xs with
      | nil => simp [hb, headO]
      | cons y ys =>
        have hy : y ∈ bfill xs := by rw [hb]; exact List.mem_cons_self _ _
        have := ih (fun o' ho' => h o' (List.mem_cons_of_mem _ ho')) y hy
        simp [hb, headO, this]
    · exact ih (fun o' ho' => h o' (List.mem_cons_of_mem _ ho')) o ht

/-- Claim C6 counterexample: with closes `[1, 2, 1, 2]` and RSI length 3
the leading warm-up entry (position 0, well before `length` observations)
is a defined value, 50 — the final `.bfill()` back-fills the warm-up NaNs
from the first defined RSI value, contradicting the claim that leading
values are never back-filled. -/
theorem C6_rsi_backfilled_cex :
    (rsi [some 1, some 2, some 1, some 2] 3).get? 0 = some (some 50) :=
  of_decide_eq_true (by with_unfolding_all rfl)

/-- Claim C6 (amended): for a series with fewer than `length` observations
SMA, RSI and ATR are entirely undefined; for longer series the leading
warm-up values of SMA and ATR are undefined and never back-filled, but RSI
back-fills its leading warm-up values from the first defined RSI value. -/
theorem C6_warmup_amended :
    (∀ (s : Series) (n : Nat), s.length < n → ∀ o ∈ sma s n, o = none)
    ∧ (∀ (s : Series) (n : Nat), s.length < n → ∀ o ∈ rsi s n, o = none)
    ∧ (∀ (df : DF) (n : Nat), df.rows.length < n → ∀ o ∈ atr df n, o = none)
    ∧ (∀ (s : Series) (n t : Nat), t + 1 < n → (sma s n).getD t none = none)
    ∧ (∀ (df : DF) (n t : Nat), t + 1 < n → (atr df n).getD t none = none) := by
  refine ⟨?_, ?_, ?_, ?_, ?_⟩
  · intro s n h o ho
    exact rollingApply_all_none h o ho
  · intro s n h o ho
    unfold rsi at ho
    refine bfill_all_none _ ?_ o ho
    intro o' ho'
    rcases List.mem_map.mp ho' with ⟨o2, ho2, rfl⟩
    have h2 : o2 = none := by
      refine zipWith_rsDiv_none ?_ o2 ho2
      intro x hx
      refine rollingApply_all_none ?_ x hx
      simp [diffS_length]
      exact h
    rw [h2]
    rfl
  · intro df n h o ho
    unfold atr at ho
    split at ho
    · refine rollingApply_all_none ?_ o ho
      rw [trueRange_length]
      exact h
    · simp at ho
  · intro s n t h
    exact rollingApply_getD_none h
  · intro df n t h
    unfold atr
    split
    · exact rollingApply_getD_none h
    · rfl

/-- Claim C6 witness: the SMA warm-up clause at a concrete input. -/
theorem C6_warmup_amended_witness : (sma [some 1] 5).getD 0 none = none :=
  C6_warmup_amended.2.2.2.1 [some 1] 5 0 (by decide)

/-- A comparison against a NaN right-hand side reads false. -/
theorem optGT_none_right (a : Option ℚ) : optGT a none = false := by
  cases a <;> rfl

/-- A two-way branch between the two regime labels takes one of them. -/
theorem ite_on_off (c : Prop) [Decidable c] :
    (if c then "ON" else "OFF") = "ON" ∨ (if c then "ON" else "OFF") = "OFF" := by
  split
  · exact Or.inl rfl
  · exact Or.inr rfl

/-- The last entry of an all-NaN series is NaN. -/
theorem lastO_none_of_all : ∀ (s : Series), (∀ o ∈ s, o = none) → lastO s = none := by
  intro s
  induction s with
  | nil => intro _; rfl
  | cons x xs ih =>
    intro h
    cases xs with
    | nil =>
      have hx : x = none := h x (List.mem_cons_self _ _)
      simp [lastO, hx]
    | cons y ys =>
      have : lastO (x :: y :: ys) = lastO (y :: ys) := by
        simp [lastO, List.getLast?_cons_cons]
      rw [this]
      exact ih fun o ho => h o (List.mem_cons_of_mem _ ho)

/-- Claim C7 counterexample: on a one-bar index series (fewer than 200
bars) the regime classifier returns `OFF`, not the claimed `UNKNOWN` — the
NaN 200-bar SMA makes the comparison read false, and the code has no
UNKNOWN state at all. -/
theorem C7_short_index_cex :
    market_regime tinyIdx [] 55 = "OFF" ∧ market_regime tinyIdx [] 55 ≠ "UNKNOWN" := by
  constructor
  · exact of_decide_eq_true (by with_unfolding_all rfl)
  · exact of_decide_eq_true (by with_unfolding_all rfl)

/-- Claim C7 (amended): the classifier's result is drawn from {ON, OFF}
only (a two-state machine: CAUTION and UNKNOWN do not occur), and for every
input whose index series has fewer than 200 bars the result is OFF —
insufficient index history reads as not-above-the-200-bar-average rather
than as a distinct UNKNOWN state. -/
theorem C7_regime_amended :
    (∀ (idx : DF) (u : List (String × Option DF)) (p : ℚ),
        market_regime idx u p = "ON" ∨ market_regime idx u p = "OFF")
    ∧ (∀ (idx : DF) (u : List (String × Option DF)) (p : ℚ),
        idx.rows.length < 200 → market_regime idx u p = "OFF") := by
  constructor
  · intro idx u p
    exact ite_on_off _
  · intro idx u p h
    unfold market_regime
    have hfalse : (if idx.cols.contains "Close" then
        optGT (lastO (DF.col idx "Close")) (lastO (sma (DF.col idx "Close") 200))
      else false) = false := by
      split
      · have hlen : (DF.col idx "Close").length < 200 := by
          rw [col_close_length]
          exact h
        have hnone : ∀ o ∈ sma (DF.col idx "Close") 200, o = none :=
          rollingApply_all_none hlen
        rw [lastO_none_of_all _ hnone]
        exact optGT_none_right _
      · rfl
    simp only [hfalse, Bool.false_and]
    rfl

/-- Claim C7 witness: the short-index clause at a concrete five-bar index. -/
theorem C7_regime_amended_witness : market_regime scenarioDF [] 45 = "OFF" :=
  C7_regime_amended.2 scenarioDF [] 45 (by decide)

/-- Claim C8: the volume-thrust detector fires exactly on a strict
inequality — given a Volume column, at least `lookback + 1` non-NaN
volumes, current volume `v` and trailing-window mean `m`, the detector
returns true iff `v > multiple * m`, and returns false at boundary
equality. -/
theorem C8_volume_thrust_strict (df : DF) (lookback : Nat) (multiple v m : ℚ)
    (hcol : hasCols df ["Volume"] = true)
    (hcnt : lookback + 1 ≤ ((DF.col df "Volume").filterMap id).length)
    (hlast : lastO (DF.col df "Volume") = some v)
    (hmean : seriesMean (priorWindow (DF.col df "Volume") lookback) = some m) :
    (volume_thrust df lookback multiple = true ↔ multiple * m < v)
    ∧ (v = multiple * m → volume_thrust df lookback multiple = false) := by
  have hmain : volume_thrust df lookback multiple = decide (multiple * m < v) := by
    unfold volume_thrust
    simp [hcol, hlast, hmean, if_neg (not_lt.mpr hcnt)]
  constructor
  · rw [hmain]
    exact decide_eq_true_iff
  · intro he
    rw [hmain, he]
    simp

/-- Claim C8 witness: the strict rule at volumes `[1, 1, 1, 1, 1, 6]` with
lookback 5 and multiplier 1. -/
theorem C8_volume_thrust_strict_witness : volume_thrust demoVolDF 5 1 = true := by
  have h := C8_volume_thrust_strict demoVolDF 5 1 6 1
    (of_decide_eq_true (by with_unfolding_all rfl))
    (of_decide_eq_true (by with_unfolding_all rfl))
    (of_decide_eq_true (by with_unfolding_all rfl))
    (of_decide_eq_true (by with_unfolding_all rfl))
  exact h.1.mpr (by norm_num)

/-- Claim C9 counterexample: two candidate rows tied on the claimed keys
(RS-new-high and ATR%) with symbols in order AAA before BBB come out BBB
before AAA — the code's fourth key, RSI descending, decides, and symbol
name is no tie-break at all. -/
theorem C9_sort_tiebreak_cex :
    sortRows [rowA, rowB] = [rowB, rowA]
    ∧ rowA.symbol < rowB.symbol
    ∧ rowA.rs20dHigh = rowB.rs20dHigh
    ∧ rowA.atrPct = rowB.atrPct := by
  refine ⟨?_, ?_, rfl, rfl⟩
  · exact of_decide_eq_true (by with_unfolding_all rfl)
  · exact of_decide_eq_true (by with_unfolding_all rfl)

/-- Claim C9 (amended): the selector sorts its rows by RS20DHigh with true
first, then VolThrust ascending, then ATR% ascending, then RSI descending
(NaNs last in each numeric key); the sort is a permutation ordered by this
key, and ties on all four keys keep input order (stable sort) — symbol
name is not a key, as the concrete all-keys-tied pair shows. -/
theorem C9_sort_amended :
    (∀ rows : List OutRow, (sortRows rows).Perm rows ∧ List.Sorted rowLE (sortRows rows))
    ∧ sortRows [rowC, rowA] = [rowC, rowA] := by
  constructor
  · intro rows
    exact ⟨List.perm_insertionSort _ _, List.sorted_insertionSort _ _⟩
  · exact of_decide_eq_true (by with_unfolding_all rfl)

/-- Claim C10: a row whose Date cell is unparseable survives the sanitizer
with the literal date string `NaT` — `_normalize_columns` stringifies the
`NaT` before `_coerce_numeric` runs its `dropna(subset=["Date"])`, so the
drop removes nothing, contradicting both the claim and the code's own
comment that rows with a missing date are dropped. -/
theorem C10_nat_date_row_kept :
    safe_read_eod (some badDateRaw)
      = some { cols := ["Date", "Close"], rows := [{ date := "NaT", close := some 10 }] } :=
  of_decide_eq_true (by with_unfolding_all rfl)

end V2
